import Mathlib

/-!
Verification development for the voxnix container-lifecycle core.

This file gives a shallow embedding of the Python modules
`agent/tools/cli.py`, `agent/tools/zfs.py`, `agent/tools/workloads.py`,
`agent/nix_gen/models.py` and (modelled from the specification, since the
module itself is not in the source tree) `agent/tools/containers.py`,
and proves the frozen claims about them.

Modelling conventions:
* The external world (the `zfs`, `machinectl`, `nixos-container`,
  `extra-container` binaries) is a deterministic oracle mapping a command
  argument vector to an outcome: either a completed process
  (stdout/stderr/returncode) or a timeout.  `run_command` raising
  `TimeoutError` is modelled by the `Res.timeout` constructor; every other
  Python exception class that appears in the embedded code gets its own
  explicit constructor.
* `CommandResult.__post_init__` strips stdout/stderr; the embedding applies
  `pyStrip` (a model of Python `str.strip()` over the Python whitespace
  set) at the same construction point.
* Side effects are made observable by threading a trace of issued command
  vectors (and of host file reads) through each embedded function.
* Python f-string messages that quote values with single quotes are rendered
  without the quote characters; no claim depends on the quoting.
-/

namespace Voxnix

/-- Structured result from a CLI invocation (`agent/tools/cli.py`,
`CommandResult`).  `__post_init__` strips stdout and stderr, which is applied
at construction via `mkCommandResult`. -/
structure CommandResult where
  stdout : String
  stderr : String
  returncode : Int
deriving DecidableEq, Repr

/-- Python whitespace as recognized by `str.strip()` and the regex class
`\s`: space, tab, newline, carriage return, vertical tab, form feed. -/
def isPyWhitespace (c : Char) : Bool :=
  c = ' ' || c = '\t' || c = '\n' || c = '\r' || c = '\x0b' || c = '\x0c'

/-- Model of Python `str.strip()`: drop leading and trailing whitespace. -/
def pyStrip (s : String) : String :=
  String.mk (((s.data.dropWhile isPyWhitespace).reverse.dropWhile isPyWhitespace).reverse)

/-- Build a `CommandResult` the way `run_command` does: stdout and stderr
are stripped (`__post_init__`). -/
def mkCommandResult (out err : String) (rc : Int) : CommandResult :=
  ⟨pyStrip out, pyStrip err, rc⟩

/-- Property `CommandResult.success`: true iff the command exited with 0. -/
def CommandResult.success (r : CommandResult) : Bool :=
  r.returncode == 0

/-- Outcome of one `run_command` call: either a completed process or a
`TimeoutError` (the process exceeded its bound and was killed). -/
inductive CmdOutcome where
  | ok (r : CommandResult)
  | timeout
deriving DecidableEq, Repr

/-- The external world: a deterministic oracle from a command argument
vector to its outcome, plus the host filesystem used by the ownership
fallback path (path contents, `none` = unreadable / missing, the `OSError`
branch of `Path.read_text`). -/
structure Sys where
  outcomes : List String → CmdOutcome
  fs : String → Option String

/-- Observable side effects: the commands issued (in order) and the host
files read (in order). -/
structure Trace where
  cmds : List (List String)
  reads : List String
deriving DecidableEq, Repr

/-- Empty trace. -/
def Trace.empty : Trace := ⟨[], []⟩

/-- Model of `run_command`: record the command in the trace, obtain the
outcome from the oracle, and apply the `__post_init__` stripping. -/
def runCmd (sys : Sys) (args : List String) (t : Trace) : CmdOutcome × Trace :=
  let o := match sys.outcomes args with
    | .ok r => .ok (mkCommandResult r.stdout r.stderr r.returncode)
    | .timeout => .timeout
  (o, ⟨t.cmds ++ [args], t.reads⟩)

/-- Model of reading one host file (`Path.read_text` with `except OSError`):
record the path in the trace, return the contents if readable. -/
def readFile (sys : Sys) (path : String) (t : Trace) : Option String × Trace :=
  (sys.fs path, ⟨t.cmds, t.reads ++ [path]⟩)

/-- Outcome of an embedded Python coroutine: a returned value, or an
uncaught `TimeoutError` propagating out of `run_command`. -/
inductive Res (α : Type) where
  | ok (a : α)
  | timeout
deriving DecidableEq, Repr

/-- Python `a or b` on strings: `b` if `a` is empty (falsy), else `a`. -/
def pyOr (a b : String) : String :=
  if a = "" then b else a

/-! ## agent/tools/zfs.py -/

/-- Structured result from a ZFS dataset operation (`ZfsResult`). -/
structure ZfsResult where
  success : Bool
  dataset : String
  message : String
  mount_path : Option String := none
  error : Option String := none
deriving DecidableEq, Repr

/-- Dataset path for a user's root dataset (`_user_dataset`):
`tank/users/<owner>`. -/
def userDataset (owner : String) : String :=
  "tank/users/" ++ owner

/-- Dataset path for a container's root dataset (`_container_dataset`):
`tank/users/<owner>/containers/<name>`. -/
def containerDataset (owner name : String) : String :=
  "tank/users/" ++ owner ++ "/containers/" ++ name

/-- Dataset path for a container's workspace dataset
(`_workspace_dataset`). -/
def workspaceDataset (owner name : String) : String :=
  "tank/users/" ++ owner ++ "/containers/" ++ name ++ "/workspace"

/-- Host-side mount path for a container's workspace
(`_workspace_mount_path`): `/tank/users/<owner>/containers/<name>/workspace`. -/
def workspaceMountPath (owner name : String) : String :=
  "/tank/users/" ++ owner ++ "/containers/" ++ name ++ "/workspace"

/-- Model of `_apply_quota`: `zfs set quota=<quota> <dataset>`, reporting
success or failure as a `ZfsResult`. -/
def applyQuota (sys : Sys) (dataset quota : String) (t : Trace) :
    Res ZfsResult × Trace :=
  let (o, t1) := runCmd sys ["zfs", "set", "quota=" ++ quota, dataset] t
  match o with
  | .timeout => (.timeout, t1)
  | .ok result =>
    if result.success then
      (.ok { success := true, dataset,
             message := "Applied quota " ++ quota ++ " to " ++ dataset ++ "." }, t1)
    else
      (.ok { success := false, dataset,
             message := "Failed to apply quota " ++ quota ++ " to " ++ dataset ++ ".",
             error := some (pyOr result.stderr result.stdout) }, t1)

/-- Model of `create_user_datasets`.  The `quota` argument stands for
`get_settings().zfs_user_quota`.  Mirrors the source exactly: an existence
check, then either (set mountpoint, re-apply quota) on the existing dataset
or (create with mountpoint, apply quota) — in both branches the quota
result is only logged and the returned result has `success := true`
regardless of whether the quota application succeeded. -/
def create_user_datasets (sys : Sys) (quota owner : String) (t : Trace) :
    Res ZfsResult × Trace :=
  let dataset := userDataset owner
  let (o1, t1) := runCmd sys ["zfs", "list", "-H", "-o", "name", dataset] t
  match o1 with
  | .timeout => (.timeout, t1)
  | .ok check =>
    if check.success then
      let mountPath := "/tank/users/" ++ owner
      let (o2, t2) := runCmd sys ["zfs", "set", "mountpoint=" ++ mountPath, dataset] t1
      match o2 with
      | .timeout => (.timeout, t2)
      | .ok _ =>
        let (o3, t3) := applyQuota sys dataset quota t2
        match o3 with
        | .timeout => (.timeout, t3)
        | .ok _quotaResult =>
          (.ok { success := true, dataset,
                 message := "User dataset " ++ dataset ++
                   " already exists (quota: " ++ quota ++ ")." }, t3)
    else
      let mountPath := "/tank/users/" ++ owner
      let (o2, t2) := runCmd sys
        ["zfs", "create", "-o", "mountpoint=" ++ mountPath, dataset] t1
      match o2 with
      | .timeout => (.timeout, t2)
      | .ok result =>
        if result.success then
          let (o3, t3) := applyQuota sys dataset quota t2
          match o3 with
          | .timeout => (.timeout, t3)
          | .ok _quotaResult =>
            (.ok { success := true, dataset,
                   message := "Created user dataset " ++ dataset ++
                     " (quota: " ++ quota ++ ")." }, t3)
        else
          (.ok { success := false, dataset,
                 message := "Failed to create user dataset " ++ dataset ++ ".",
                 error := some (pyOr result.stderr result.stdout) }, t2)

/-- Model of `create_container_dataset`: ensure the user root exists, check
the workspace dataset, and if absent create the intermediate datasets
(`containers/`, `containers/<name>/`) and the workspace leaf, each with an
explicit mountpoint.  Results of the intermediate create calls are ignored,
as in the source. -/
def create_container_dataset (sys : Sys) (quota owner name : String) (t : Trace) :
    Res ZfsResult × Trace :=
  let workspaceDs := workspaceDataset owner name
  let mountPath := workspaceMountPath owner name
  let (u, t1) := create_user_datasets sys quota owner t
  match u with
  | .timeout => (.timeout, t1)
  | .ok userResult =>
    if !userResult.success then
      (.ok { success := false, dataset := workspaceDs,
             message := "Failed to create container dataset: " ++ userResult.message,
             error := userResult.error }, t1)
    else
      let (o1, t2) := runCmd sys ["zfs", "list", "-H", "-o", "name", workspaceDs] t1
      match o1 with
      | .timeout => (.timeout, t2)
      | .ok check =>
        if check.success then
          let (o2, t3) := runCmd sys
            ["zfs", "set", "mountpoint=" ++ mountPath, workspaceDs] t2
          match o2 with
          | .timeout => (.timeout, t3)
          | .ok _ =>
            (.ok { success := true, dataset := workspaceDs,
                   message := "Container dataset " ++ workspaceDs ++ " already exists.",
                   mount_path := some mountPath }, t3)
        else
          let containersDs := "tank/users/" ++ owner ++ "/containers"
          let containersPath := "/tank/users/" ++ owner ++ "/containers"
          let containerDs := containerDataset owner name
          let containerRoot := "/tank/users/" ++ owner ++ "/containers/" ++ name
          let (c1, t3) := runCmd sys ["zfs", "list", "-H", "-o", "name", containersDs] t2
          match c1 with
          | .timeout => (.timeout, t3)
          | .ok containersCheck =>
            let (step1, t4) :=
              if !containersCheck.success then
                let (o, t4) := runCmd sys
                  ["zfs", "create", "-o", "mountpoint=" ++ containersPath, containersDs] t3
                (o, t4)
              else (.ok (mkCommandResult "" "" 0), t3)
            match step1 with
            | .timeout => (.timeout, t4)
            | .ok _ =>
              let (c2, t5) := runCmd sys
                ["zfs", "list", "-H", "-o", "name", containerDs] t4
              match c2 with
              | .timeout => (.timeout, t5)
              | .ok containerCheck =>
                let (step2, t6) :=
                  if !containerCheck.success then
                    let (o, t6) := runCmd sys
                      ["zfs", "create", "-o", "mountpoint=" ++ containerRoot, containerDs] t5
                    (o, t6)
                  else (.ok (mkCommandResult "" "" 0), t5)
                match step2 with
                | .timeout => (.timeout, t6)
                | .ok _ =>
                  let (o3, t7) := runCmd sys
                    ["zfs", "create", "-o", "mountpoint=" ++ mountPath, workspaceDs] t6
                  match o3 with
                  | .timeout => (.timeout, t7)
                  | .ok result =>
                    if result.success then
                      (.ok { success := true, dataset := workspaceDs,
                             message := "Created container dataset at " ++ mountPath ++ ".",
                             mount_path := some mountPath }, t7)
                    else
                      (.ok { success := false, dataset := workspaceDs,
                             message := "Failed to create container dataset " ++
                               workspaceDs ++ ".",
                             error := some (pyOr result.stderr result.stdout) }, t7)

/-- Model of `destroy_container_dataset`: check existence of the container
root subtree; if absent, return success without destroying anything;
otherwise `zfs destroy -r` it. -/
def destroy_container_dataset (sys : Sys) (owner name : String) (t : Trace) :
    Res ZfsResult × Trace :=
  let containerDs := containerDataset owner name
  let (o1, t1) := runCmd sys ["zfs", "list", "-H", "-o", "name", containerDs] t
  match o1 with
  | .timeout => (.timeout, t1)
  | .ok check =>
    if !check.success then
      (.ok { success := true, dataset := containerDs,
             message := "Container dataset " ++ containerDs ++
               " does not exist (already clean)." }, t1)
    else
      let (o2, t2) := runCmd sys ["zfs", "destroy", "-r", containerDs] t1
      match o2 with
      | .timeout => (.timeout, t2)
      | .ok result =>
        if result.success then
          (.ok { success := true, dataset := containerDs,
                 message := "Destroyed container dataset " ++ containerDs ++ "." }, t2)
        else
          (.ok { success := false, dataset := containerDs,
                 message := "Failed to destroy container dataset " ++ containerDs ++ ".",
                 error := some (pyOr result.stderr result.stdout) }, t2)

/-! ## agent/nix_gen/models.py -/

/-- Character class `[a-z0-9]`: lowercase ASCII letter or digit. -/
def isLowerAlnum (c : Char) : Bool :=
  (Char.isLower c) || (Char.isDigit c)

/-- Language of the container-name regex
`^[a-z0-9](?:[a-z0-9-]*[a-z0-9])?$` (`_CONTAINER_NAME_RE`): a single
lowercase-alphanumeric character, or such a character followed by a run of
lowercase alphanumerics and hyphens ending in a lowercase alphanumeric. -/
def nameRegexMatches (cs : List Char) : Bool :=
  match cs with
  | [] => false
  | c :: rest =>
    isLowerAlnum c &&
      (match rest.reverse with
       | [] => true
       | l :: mid => isLowerAlnum l && mid.all (fun d => isLowerAlnum d || d = '-'))

/-- Maximum container name length (`_CONTAINER_NAME_MAX_LEN`). -/
def containerNameMaxLen : Nat := 11

/-- Model of `validate_container_name`: returns an error message if the
name is invalid, `none` if valid.  Checks, in source order: emptiness, the
regex, then the length bound. -/
def validate_container_name (name : String) : Option String :=
  if name = "" then
    some "Container name must not be empty."
  else if !nameRegexMatches name.data then
    some ("Container name " ++ name ++ " is invalid. " ++
      "Must be lowercase alphanumeric with hyphens, " ++
      "no leading/trailing hyphens (e.g. my-dev).")
  else if name.length > containerNameMaxLen then
    some ("Container name " ++ name ++ " is too long (" ++
      toString name.length ++ " chars). " ++
      "Must be " ++ toString containerNameMaxLen ++ " characters or fewer.")
  else
    none

namespace ContainerSpec

/-- Model of the pydantic field validator `ContainerSpec.validate_name`:
raising `ValueError(msg)` is the `.error msg` constructor, returning the
value is `.ok`.  Same checks, in the same order, as
`validate_container_name`, with its own message texts. -/
def validate_name (v : String) : Except String String :=
  if v = "" then
    .error "Container name must not be empty"
  else if !nameRegexMatches v.data then
    .error ("Container name " ++ v ++ " is invalid. " ++
      "Must be lowercase alphanumeric with hyphens, " ++
      "no leading/trailing hyphens (e.g. my-dev-container)")
  else if v.length > containerNameMaxLen then
    .error ("Container name " ++ v ++ " is too long (" ++
      toString v.length ++ " chars). " ++
      "Must be " ++ toString containerNameMaxLen ++ " characters or fewer - " ++
      "the network interface name is derived from the container name " ++
      "and Linux enforces a 15-character interface name limit.")
  else
    .ok v

end ContainerSpec

/-! ## _human_size (agent/tools/zfs.py) -/

/-- Parse a nonempty all-digit character list as a natural number (the
digit-string core of Python `int(...)`). -/
def parseDigits (cs : List Char) : Option Nat :=
  if cs ≠ [] && cs.all Char.isDigit then
    some (cs.foldl (fun n c => 10 * n + (c.toNat - 48)) 0)
  else
    none

/-- Model of Python `int(raw)` as used by `_human_size`: an optional sign
followed by digits; any other input raises `ValueError` (here: `none`).
Python additionally accepts surrounding whitespace and interior
underscores; no such input appears in this development. -/
def parsePyInt (s : String) : Option Int :=
  match s.data with
  | '-' :: rest => (parseDigits rest).map (fun n => -(n : Int))
  | '+' :: rest => (parseDigits rest).map (fun n => (n : Int))
  | cs => (parseDigits cs).map (fun n => (n : Int))

/-- Nearest-tenths numerator of a rational, ties to even: the integer `t`
closest to `q * 10`.  This is the rounding performed by Python `%.1f`
formatting on an exactly-representable float (every value reaching the
format in `_human_size` is exact for sizes below 2^53). -/
def roundTenths (q : ℚ) : Int :=
  let x := q * 10
  let f := ⌊x⌋
  let r := x - f
  if r < 1 / 2 then f
  else if r > 1 / 2 then f + 1
  else if f % 2 = 0 then f else f + 1

/-- Render a nonnegative tenths numerator `t` as the decimal `"a.b"` with
one fractional digit, as Python `%.1f` does. -/
def showTenths (t : Int) : String :=
  toString (t.toNat / 10) ++ "." ++ toString (t.toNat % 10)

/-- Format a rational with one decimal place (`Python f-string :.1f`),
for the nonnegative values produced inside `_human_size`. -/
def fmtOneDecimal (q : ℚ) : String :=
  showTenths (roundTenths q)

/-- Numeric core of `_human_size` after the `int(raw)` conversion: the
`for unit in ("B","K","M","G","T")` loop with `size /= 1024` unrolled.
Division is exact rational division, modelling the source's float division
(exact for the sizes of interest). -/
def humanSizeInt (z : Int) : String :=
  if z < 1024 then toString z ++ "B"
  else
    let q1 : ℚ := (z : ℚ) / 1024
    if q1 < 1024 then fmtOneDecimal q1 ++ "K"
    else
      let q2 := q1 / 1024
      if q2 < 1024 then fmtOneDecimal q2 ++ "M"
      else
        let q3 := q2 / 1024
        if q3 < 1024 then fmtOneDecimal q3 ++ "G"
        else
          let q4 := q3 / 1024
          if q4 < 1024 then fmtOneDecimal q4 ++ "T"
          else fmtOneDecimal (q4 / 1024) ++ "P"

/-- Model of `_human_size`: sentinel handling (`"none"`, `"0"`, `"-"`,
empty — the empty string is replaced by `"0"`), `ValueError` passthrough
for non-numeric input, and the unit-conversion loop for numeric input. -/
def humanSize (raw : String) : String :=
  if raw = "none" ∨ raw = "0" ∨ raw = "-" ∨ raw = "" then
    if raw = "" then "0" else raw
  else
    match parsePyInt raw with
    | none => raw
    | some z => humanSizeInt z

/-! ## agent/tools/workloads.py -/

/-- Parse one line of `/etc/nixos-containers/<name>.conf` against
`_SYSTEM_PATH_RE` (`^SYSTEM_PATH=(.+)$`, multiline): the captured group is
the nonempty remainder of the line, then `.strip()` is applied. -/
def parseSystemPathLine (l : String) : Option String :=
  if l.startsWith "SYSTEM_PATH=" && (l.drop 12) ≠ "" then
    some (pyStrip (l.drop 12))
  else
    none

/-- Parse one line of `$SYSTEM_PATH/etc/set-environment` against
`_VOXNIX_OWNER_RE` (`^export\s+VOXNIX_OWNER="([^"]*)"`, multiline):
the literal `export`, one or more whitespace characters, the literal
`VOXNIX_OWNER="`, then the captured value up to the next double quote
(which must exist). -/
def parseOwnerLine (l : String) : Option String :=
  if l.startsWith "export" then
    let rest := (l.drop 6).data
    let ws := rest.takeWhile isPyWhitespace
    if ws = [] then none
    else
      let rest2 := rest.dropWhile isPyWhitespace
      let key := ("VOXNIX_OWNER=\"").data
      if key.isPrefixOf rest2 then
        let after := rest2.drop key.length
        if after.any (fun c => c = '"') then
          some (String.mk (after.takeWhile (fun c => c ≠ '"')))
        else none
      else none
  else none

/-- Model of `_read_owner_from_system_path`: read the per-container conf
file, extract `SYSTEM_PATH`, read the build artifact's static
`etc/set-environment`, extract `VOXNIX_OWNER`; an empty captured value is
treated as absent (`m2.group(1) or None`). -/
def read_owner_from_system_path (sys : Sys) (name : String) (t : Trace) :
    Option String × Trace :=
  let confPath := "/etc/nixos-containers/" ++ name ++ ".conf"
  let (c, t1) := readFile sys confPath t
  match c with
  | none => (none, t1)
  | some confText =>
    match (confText.splitOn "\n").findSome? parseSystemPathLine with
    | none => (none, t1)
    | some systemPath =>
      let setEnvPath := systemPath ++ "/etc/set-environment"
      let (e, t2) := readFile sys setEnvPath t1
      match e with
      | none => (none, t2)
      | some setEnvText =>
        match (setEnvText.splitOn "\n").findSome? parseOwnerLine with
        | none => (none, t2)
        | some value => (if value = "" then none else some value, t2)

/-- Argument vector of the live in-container ownership query
(`nixos-container run <name> -- sh -c "echo $VOXNIX_OWNER"`). -/
def ownerQueryCmd (name : String) : List String :=
  ["nixos-container", "run", name, "--", "sh", "-c", "echo $VOXNIX_OWNER"]

/-- Model of `get_container_owner`: the fast path queries the running
container; a successful exit with nonempty stripped stdout is returned
immediately.  On timeout (caught `TimeoutError`), failure, or empty output,
the static system-path fallback is consulted.  Never raises. -/
def get_container_owner (sys : Sys) (name : String) (t : Trace) :
    Option String × Trace :=
  let (o, t1) := runCmd sys (ownerQueryCmd name) t
  match o with
  | .ok result =>
    if result.success && result.stdout ≠ "" then
      let owner := pyStrip result.stdout
      if owner ≠ "" then (some owner, t1)
      else read_owner_from_system_path sys name t1
    else read_owner_from_system_path sys name t1
  | .timeout => read_owner_from_system_path sys name t1

/-- Substring test: does `needle` occur contiguously inside `hay`
(Python `needle in hay`)? -/
def hasSubstring (hay needle : String) : Bool :=
  substringAux needle.data hay.data
where
  /-- Check `needle` against every suffix of `hay`. -/
  substringAux (needle hay : List Char) : Bool :=
    needle.isPrefixOf hay ||
      match hay with
      | [] => false
      | _ :: tl => substringAux needle tl

/-- Install-progress marker emitted by the build/install tool before it
attempts to start the container (the classification anchor on failure). -/
def installMarker : String := "Installing containers:"

/-- Result of a container lifecycle operation (`ContainerResult`,
from `agent/tests/test_containers.py`). -/
structure ContainerResult where
  success : Bool
  name : String
  message : String
  error : Option String := none
deriving DecidableEq, Repr

/-- Immutable container request (`ContainerSpec` fields used by the
orchestrator). -/
structure ContainerSpecData where
  name : String
  owner : String
  modules : List String
  workspace_path : Option String := none
deriving DecidableEq, Repr

/-- Collaborator outcomes for one `create_container` call: the result of
`StorageProvisioner.provisionWorkspace(owner, name)`
(`create_container_dataset`), the outcome of the external
build/install/start tool invocation, and the result of the best-effort
rollback `destroyWorkspace` (`destroy_container_dataset`), which the
orchestrator logs but never lets change the reported result. -/
structure OrchEnv where
  provision : Res ZfsResult
  build : CmdOutcome
  destroyResult : Res ZfsResult
deriving Repr

/-- Observable collaborator calls made by one orchestrator operation. -/
structure OrchTrace where
  buildCalls : Nat
  destroyCalls : List (String × String)
deriving DecidableEq, Repr

/-- Modelled from the spec: `create_container` lives in
`agent/tools/containers.py`, which is absent from the source tree (only its
tests in `agent/tests/test_containers.py` and its callers in
`agent/agent.py` are present).  Per spec section 4.2 Create:
provision the workspace first and on failure return immediately with a
storage/provisioning annotation, never invoking the build tool; otherwise
set the workspace path on the spec, build the declarative expression
(external pure function), and invoke the build/install/start tool.
Exit 0 is success.  On non-zero exit, classify by stdout: if it contains
the install-progress marker, the install succeeded and storage is
preserved; otherwise it is a pure build failure and `destroyWorkspace` is
called once as best-effort rollback whose own outcome never changes the
reported result.  The error detail is stderr, or stdout if stderr is
empty. -/
def create_container (env : OrchEnv) (spec : ContainerSpecData) :
    Res ContainerResult × OrchTrace :=
  match env.provision with
  | .timeout => (.timeout, ⟨0, []⟩)
  | .ok zfsResult =>
    if !zfsResult.success then
      (.ok { success := false, name := spec.name,
             message := "Storage provisioning failed for container " ++ spec.name ++ ".",
             error := zfsResult.error }, ⟨0, []⟩)
    else
      let _specWithWorkspace := { spec with workspace_path := zfsResult.mount_path }
      match env.build with
      | .timeout => (.timeout, ⟨1, []⟩)
      | .ok raw =>
        let result := mkCommandResult raw.stdout raw.stderr raw.returncode
        if result.success then
          (.ok { success := true, name := spec.name,
                 message := "Container " ++ spec.name ++ " created and started." },
           ⟨1, []⟩)
        else if hasSubstring result.stdout installMarker then
          (.ok { success := false, name := spec.name,
                 message := "Container " ++ spec.name ++
                   " install succeeded but start failed.",
                 error := some (pyOr result.stderr result.stdout) }, ⟨1, []⟩)
        else
          (.ok { success := false, name := spec.name,
                 message := "Container " ++ spec.name ++ " build failed.",
                 error := some (pyOr result.stderr result.stdout) },
           ⟨1, [(spec.owner, spec.name)]⟩)

/-! ## Claims C8 and C10: name validation -/

/-- C8: `validate_container_name` rejects `"my-dev-container"` (16 chars)
as too long; rejects `"-bad"`, `"bad-"`, `"MyDev"`, `"a b"`, `"a.b"` as
malformed; and accepts `"dev-abc"` (returns `none`). -/
theorem validate_container_name_examples :
    ((validate_container_name "my-dev-container").any
      (fun m => hasSubstring m "too long") = true) ∧
    ((validate_container_name "-bad").any (fun m => hasSubstring m "is invalid") = true) ∧
    ((validate_container_name "bad-").any (fun m => hasSubstring m "is invalid") = true) ∧
    ((validate_container_name "MyDev").any (fun m => hasSubstring m "is invalid") = true) ∧
    ((validate_container_name "a b").any (fun m => hasSubstring m "is invalid") = true) ∧
    ((validate_container_name "a.b").any (fun m => hasSubstring m "is invalid") = true) ∧
    validate_container_name "dev-abc" = none := by
  decide

/-- C10: the standalone `validate_container_name` function and the
`ContainerSpec` name field validator accept exactly the same set of names —
for every string `n`, `validate_container_name n` returns `none` iff
`ContainerSpec.validate_name n` does not raise. -/
theorem validate_container_name_agrees_with_spec_validator (n : String) :
    validate_container_name n = none ↔ ContainerSpec.validate_name n = .ok n := by
  unfold validate_container_name ContainerSpec.validate_name
  by_cases h1 : n = ""
  · simp [h1]
  · cases h2 : nameRegexMatches n.data
    · simp [h1, h2]
    · by_cases h3 : n.length > containerNameMaxLen
      · simp [h1, h2, h3]
      · simp [h1, h2, h3]

/-! ## Claim C9: size formatting -/

/-- Unit letter attached after `k` divisions by 1024 in `_human_size`. -/
def unitLetter (k : Nat) : String :=
  match k with
  | 1 => "K"
  | 2 => "M"
  | 3 => "G"
  | 4 => "T"
  | _ => "P"

/-- C9 counterexample: `_human_size` does not pass the empty string through
unchanged (it returns `"0"`), and a plain byte count below 1024 is rendered
with no decimal place at all (`"512"` becomes `"512B"`, which contains no
`"."`), refuting the claim that every sentinel passes through unchanged and
every other byte count is shown with one decimal place. -/
theorem humanSize_empty_and_bytes_counterexample :
    humanSize "" = "0" ∧ humanSize "" ≠ "" ∧
    humanSize "512" = "512B" ∧ hasSubstring (humanSize "512") "." = false := by
  decide

/-- Helper: `roundTenths` at an integer value is exact. -/
lemma roundTenths_int (m : Int) : roundTenths ((m : ℚ)) = m * 10 := by
  unfold roundTenths
  have hx : ((m : ℚ)) * 10 = ((m * 10 : Int) : ℚ) := by push_cast; ring
  simp only [hx, Int.floor_intCast, sub_self]
  norm_num

/-- Helper: one-decimal formatting of an integer value. -/
lemma fmtOneDecimal_intCast (m : Int) : fmtOneDecimal ((m : ℚ)) = showTenths (m * 10) := by
  unfold fmtOneDecimal
  rw [roundTenths_int]

/-- Helper: on a non-sentinel string that parses, `_human_size` is the
numeric conversion. -/
lemma humanSize_parsed (s : String) (z : Int)
    (h1 : ¬(s = "none" ∨ s = "0" ∨ s = "-" ∨ s = "")) (h2 : parsePyInt s = some z) :
    humanSize s = humanSizeInt z := by
  unfold humanSize
  rw [if_neg h1, h2]

/-- C9 amended: `_human_size` passes the sentinels `"none"`, `"0"`, `"-"`
through unchanged and maps the empty string to `"0"`; a parsed byte count
below 1024 is rendered as the bare integer with unit letter `B` (no decimal
place); a parsed byte count of at least 1024 is rendered as the value
divided by `1024 ^ k` (binary units) formatted with one decimal place,
followed by the unit letter `K`/`M`/`G`/`T`/`P` for `k = 1..5`. -/
theorem humanSize_sentinels_and_binary_units :
    (humanSize "none" = "none" ∧ humanSize "0" = "0" ∧
     humanSize "-" = "-" ∧ humanSize "" = "0") ∧
    (∀ z : Int, z < 1024 → humanSizeInt z = toString z ++ "B") ∧
    (∀ z : Int, 1024 ≤ z → ∃ k : Nat, 1 ≤ k ∧ k ≤ 5 ∧
      humanSizeInt z = fmtOneDecimal ((z : ℚ) / 1024 ^ k) ++ unitLetter k) ∧
    (humanSize "512" = "512B" ∧ humanSize "2048" = "2.0K" ∧
     humanSize "1073741824" = "1.0G" ∧ humanSize "10737418240" = "10.0G") := by
  have sample512 : humanSize "512" = "512B" := by
    rw [humanSize_parsed "512" 512 (by decide) (by decide)]
    unfold humanSizeInt
    rw [if_pos (by norm_num)]
    decide
  have sample2K : humanSize "2048" = "2.0K" := by
    rw [humanSize_parsed "2048" 2048 (by decide) (by decide)]
    unfold humanSizeInt
    rw [if_neg (by norm_num : ¬((2048 : Int) < 1024))]
    simp only [show ((2048 : Int) : ℚ) / 1024 = ((2 : Int) : ℚ) from by norm_num]
    rw [if_pos (by norm_num : ((2 : Int) : ℚ) < 1024)]
    rw [fmtOneDecimal_intCast]
    decide
  have sample1G : humanSize "1073741824" = "1.0G" := by
    rw [humanSize_parsed "1073741824" 1073741824 (by decide) (by decide)]
    unfold humanSizeInt
    rw [if_neg (by norm_num : ¬((1073741824 : Int) < 1024))]
    simp only [show ((1073741824 : Int) : ℚ) / 1024 = ((1048576 : Int) : ℚ) from by norm_num]
    rw [if_neg (by norm_num : ¬(((1048576 : Int) : ℚ) < 1024))]
    simp only [show ((1048576 : Int) : ℚ) / 1024 = ((1024 : Int) : ℚ) from by norm_num]
    rw [if_neg (by norm_num : ¬(((1024 : Int) : ℚ) < 1024))]
    simp only [show ((1024 : Int) : ℚ) / 1024 = ((1 : Int) : ℚ) from by norm_num]
    rw [if_pos (by norm_num : ((1 : Int) : ℚ) < 1024)]
    rw [fmtOneDecimal_intCast]
    decide
  have sample10G : humanSize "10737418240" = "10.0G" := by
    rw [humanSize_parsed "10737418240" 10737418240 (by decide) (by decide)]
    unfold humanSizeInt
    rw [if_neg (by norm_num : ¬((10737418240 : Int) < 1024))]
    simp only [show ((10737418240 : Int) : ℚ) / 1024 = ((10485760 : Int) : ℚ) from by norm_num]
    rw [if_neg (by norm_num : ¬(((10485760 : Int) : ℚ) < 1024))]
    simp only [show ((10485760 : Int) : ℚ) / 1024 = ((10240 : Int) : ℚ) from by norm_num]
    rw [if_neg (by norm_num : ¬(((10240 : Int) : ℚ) < 1024))]
    simp only [show ((10240 : Int) : ℚ) / 1024 = ((10 : Int) : ℚ) from by norm_num]
    rw [if_pos (by norm_num : ((10 : Int) : ℚ) < 1024)]
    rw [fmtOneDecimal_intCast]
    decide
  refine ⟨by decide, ?_, ?_, ⟨sample512, sample2K, sample1G, sample10G⟩⟩
  · intro z hz
    unfold humanSizeInt
    rw [if_pos hz]
  · intro z hz
    unfold humanSizeInt
    rw [if_neg (by exact not_lt.mpr hz)]
    by_cases h1 : ((z : ℚ) / 1024) < 1024
    · refine ⟨1, by norm_num, by norm_num, ?_⟩
      simp only [h1, if_pos, pow_one, unitLetter]
    · by_cases h2 : ((z : ℚ) / 1024 / 1024) < 1024
      · refine ⟨2, by norm_num, by norm_num, ?_⟩
        simp only [h1, h2, if_neg, if_pos, not_false_iff, unitLetter]
        rw [div_div]
        norm_num
      · by_cases h3 : ((z : ℚ) / 1024 / 1024 / 1024) < 1024
        · refine ⟨3, by norm_num, by norm_num, ?_⟩
          simp only [h1, h2, h3, if_neg, if_pos, not_false_iff, unitLetter]
          rw [div_div, div_div]
          norm_num
        · by_cases h4 : ((z : ℚ) / 1024 / 1024 / 1024 / 1024) < 1024
          · refine ⟨4, by norm_num, by norm_num, ?_⟩
            simp only [h1, h2, h3, h4, if_neg, if_pos, not_false_iff, unitLetter]
            rw [div_div, div_div, div_div]
            norm_num
          · refine ⟨5, by norm_num, by norm_num, ?_⟩
            simp only [h1, h2, h3, h4, if_neg, not_false_iff, unitLetter]
            rw [div_div, div_div, div_div, div_div]
            norm_num

/-! ## Claim C1: quota failure handling in create_user_datasets -/

/-- Oracle for the C1 failing input: the user dataset exists (`zfs list`
succeeds), setting the mountpoint succeeds, but `zfs set quota=10G` fails
with exit code 1. -/
def quotaFailSys : Sys where
  outcomes := fun args =>
    if args.get? 1 = some "set" ∧ (args.get? 2).getD "" = "quota=10G" then
      .ok ⟨"", "cannot set quota", 1⟩
    else
      .ok ⟨"", "", 0⟩
  fs := fun _ => none

/-- C1: evaluation of `create_user_datasets` at the failing input.  The
user root dataset is found, the quota application is issued and fails, and
the operation nevertheless returns a result with `success := true` and no
error — the quota failure is swallowed (only logged), contradicting the
claim (and the repository's own tests) that it is fatal. -/
theorem create_user_datasets_swallows_quota_failure :
    create_user_datasets quotaFailSys "10G" "123" Trace.empty =
      (.ok { success := true, dataset := "tank/users/123",
             message := "User dataset tank/users/123 already exists (quota: 10G)." },
       ⟨[["zfs", "list", "-H", "-o", "name", "tank/users/123"],
         ["zfs", "set", "mountpoint=/tank/users/123", "tank/users/123"],
         ["zfs", "set", "quota=10G", "tank/users/123"]], []⟩) ∧
    quotaFailSys.outcomes ["zfs", "set", "quota=10G", "tank/users/123"] =
      .ok ⟨"", "cannot set quota", 1⟩ := by
  decide

/-! ## Claim C6: idempotent destroy -/

/-- C6: for every owner and name, when the ContainerRoot dataset is absent
(the existence check exits nonzero), `destroy_container_dataset` returns a
success result and the only command issued is the existence check — in
particular the recursive destroy tool is never invoked (the check command
does not even contain the word `destroy`). -/
theorem destroy_container_dataset_idempotent_on_absent
    (sys : Sys) (owner name : String) (t : Trace) (r : CommandResult)
    (hcheck : sys.outcomes ["zfs", "list", "-H", "-o", "name",
      containerDataset owner name] = .ok r)
    (habsent : r.returncode ≠ 0) :
    destroy_container_dataset sys owner name t =
      (.ok { success := true, dataset := containerDataset owner name,
             message := "Container dataset " ++ containerDataset owner name ++
               " does not exist (already clean)." },
       ⟨t.cmds ++ [["zfs", "list", "-H", "-o", "name", containerDataset owner name]],
        t.reads⟩) ∧
    "destroy" ∉ ["zfs", "list", "-H", "-o", "name", containerDataset owner name] := by
  have hb : (r.returncode == 0) = false := beq_eq_false_iff_ne.mpr habsent
  constructor
  · simp [destroy_container_dataset, runCmd, hcheck, mkCommandResult,
      CommandResult.success, hb]
  · intro hmem
    simp only [List.mem_cons, List.not_mem_nil, or_false] at hmem
    rcases hmem with h | h | h | h | h | h
    · exact absurd h (by decide)
    · exact absurd h (by decide)
    · exact absurd h (by decide)
    · exact absurd h (by decide)
    · exact absurd h (by decide)
    · have hlen := congrArg String.length h
      simp only [containerDataset, String.length_append] at hlen
      have e1 : "destroy".length = 7 := rfl
      have e2 : "tank/users/".length = 11 := rfl
      have e3 : "/containers/".length = 12 := rfl
      omega

/-- Oracle on which every dataset is absent: all commands exit 1. -/
def allAbsentSys : Sys where
  outcomes := fun _ => .ok ⟨"", "dataset does not exist", 1⟩
  fs := fun _ => none

/-- Witness for C6 at owner `"123"`, name `"dev"`. -/
theorem destroy_container_dataset_idempotent_on_absent_witness :
    destroy_container_dataset allAbsentSys "123" "dev" Trace.empty =
      (.ok { success := true, dataset := containerDataset "123" "dev",
             message := "Container dataset " ++ containerDataset "123" "dev" ++
               " does not exist (already clean)." },
       ⟨[["zfs", "list", "-H", "-o", "name", containerDataset "123" "dev"]], []⟩) ∧
    "destroy" ∉ ["zfs", "list", "-H", "-o", "name", containerDataset "123" "dev"] :=
  destroy_container_dataset_idempotent_on_absent allAbsentSys "123" "dev" Trace.empty
    ⟨"", "dataset does not exist", 1⟩ rfl (by decide)

/-! ## Claim C3: clean-host provisioning -/

/-- Command behavior of a clean host: every `zfs list` existence check
exits 1 (nothing exists yet), every other command succeeds. -/
def cleanSysOutcomes (args : List String) : CmdOutcome :=
  if args.get? 1 = some "list" then .ok ⟨"", "dataset does not exist", 1⟩
  else .ok ⟨"", "", 0⟩

/-- Oracle for a clean host. -/
def cleanSys : Sys :=
  ⟨cleanSysOutcomes, fun _ => none⟩

/-- C3 counterexample: on a clean host, `create_container_dataset` for
owner `"123"` and name `"dev"` returns mount path
`/tank/users/123/containers/dev/workspace`, not the claimed
`/tank/123/containers/dev/workspace`. -/
theorem create_container_dataset_mount_path_counterexample :
    (create_container_dataset cleanSys "10G" "123" "dev" Trace.empty).1 =
      .ok { success := true, dataset := workspaceDataset "123" "dev",
            message := "Created container dataset at /tank/users/123/containers/dev/workspace.",
            mount_path := some "/tank/users/123/containers/dev/workspace" } ∧
    some ("/tank/users/123/containers/dev/workspace" : String) ≠
      some ("/tank/123/containers/dev/workspace" : String) := by
  decide

/-- Helper: on a clean host, `create_user_datasets` takes the creation
branch and issues exactly the existence check, the create, and the quota
set. -/
lemma create_user_datasets_clean_host (sys : Sys) (failR okR : CommandResult)
    (hfail : failR.returncode ≠ 0) (hok : okR.returncode = 0)
    (hl : ∀ args, args.get? 1 = some "list" → sys.outcomes args = .ok failR)
    (ho : ∀ args, args.get? 1 ≠ some "list" → sys.outcomes args = .ok okR)
    (quota owner : String) (t : Trace) :
    create_user_datasets sys quota owner t =
      (.ok { success := true, dataset := userDataset owner,
             message := "Created user dataset " ++ userDataset owner ++
               " (quota: " ++ quota ++ ")." },
       ⟨t.cmds ++ [["zfs", "list", "-H", "-o", "name", userDataset owner],
                   ["zfs", "create", "-o", "mountpoint=" ++ ("/tank/users/" ++ owner),
                    userDataset owner],
                   ["zfs", "set", "quota=" ++ quota, userDataset owner]],
        t.reads⟩) := by
  have hbf : (failR.returncode == 0) = false := beq_eq_false_iff_ne.mpr hfail
  have hbo : (okR.returncode == 0) = true := beq_iff_eq.mpr hok
  have h1 := hl ["zfs", "list", "-H", "-o", "name", userDataset owner] rfl
  have h2 := ho ["zfs", "create", "-o", "mountpoint=" ++ ("/tank/users/" ++ owner),
    userDataset owner] (by simp)
  have h3 := ho ["zfs", "set", "quota=" ++ quota, userDataset owner] (by simp)
  simp [create_user_datasets, applyQuota, runCmd, h1, h2, h3, mkCommandResult,
    CommandResult.success, hbf, hbo]

/-- C3 amended: for every owner and name on a clean host (every existence
check reports absent, every create/set succeeds), `create_container_dataset`
creates the three intermediate nodes (user root, containers root, container
root) and the workspace leaf — four `zfs create` invocations, each with an
explicit mountpoint — and returns the mount path
`/tank/users/<owner>/containers/<name>/workspace`. -/
theorem create_container_dataset_clean_host (sys : Sys) (failR okR : CommandResult)
    (hfail : failR.returncode ≠ 0) (hok : okR.returncode = 0)
    (hl : ∀ args, args.get? 1 = some "list" → sys.outcomes args = .ok failR)
    (ho : ∀ args, args.get? 1 ≠ some "list" → sys.outcomes args = .ok okR)
    (quota owner name : String) (t : Trace) :
    create_container_dataset sys quota owner name t =
      (.ok { success := true, dataset := workspaceDataset owner name,
             message := "Created container dataset at " ++
               workspaceMountPath owner name ++ ".",
             mount_path := some (workspaceMountPath owner name) },
       ⟨t.cmds ++
          [["zfs", "list", "-H", "-o", "name", userDataset owner],
           ["zfs", "create", "-o", "mountpoint=" ++ ("/tank/users/" ++ owner),
            userDataset owner],
           ["zfs", "set", "quota=" ++ quota, userDataset owner],
           ["zfs", "list", "-H", "-o", "name", workspaceDataset owner name],
           ["zfs", "list", "-H", "-o", "name", "tank/users/" ++ owner ++ "/containers"],
           ["zfs", "create", "-o",
            "mountpoint=" ++ ("/tank/users/" ++ owner ++ "/containers"),
            "tank/users/" ++ owner ++ "/containers"],
           ["zfs", "list", "-H", "-o", "name", containerDataset owner name],
           ["zfs", "create", "-o",
            "mountpoint=" ++ ("/tank/users/" ++ owner ++ "/containers/" ++ name),
            containerDataset owner name],
           ["zfs", "create", "-o", "mountpoint=" ++ workspaceMountPath owner name,
            workspaceDataset owner name]],
        t.reads⟩) := by
  have hbf : (failR.returncode == 0) = false := beq_eq_false_iff_ne.mpr hfail
  have hbo : (okR.returncode == 0) = true := beq_iff_eq.mpr hok
  have huser := create_user_datasets_clean_host sys failR okR hfail hok hl ho quota owner t
  have h4 := hl ["zfs", "list", "-H", "-o", "name", workspaceDataset owner name] rfl
  have h5 := hl ["zfs", "list", "-H", "-o", "name",
    "tank/users/" ++ owner ++ "/containers"] rfl
  have h6 := ho ["zfs", "create", "-o",
    "mountpoint=" ++ ("/tank/users/" ++ owner ++ "/containers"),
    "tank/users/" ++ owner ++ "/containers"] (by simp)
  have h7 := hl ["zfs", "list", "-H", "-o", "name", containerDataset owner name] rfl
  have h8 := ho ["zfs", "create", "-o",
    "mountpoint=" ++ ("/tank/users/" ++ owner ++ "/containers/" ++ name),
    containerDataset owner name] (by simp)
  have h9 := ho ["zfs", "create", "-o", "mountpoint=" ++ workspaceMountPath owner name,
    workspaceDataset owner name] (by simp)
  simp [create_container_dataset, runCmd, huser, h4, h5, h6, h7, h8, h9,
    mkCommandResult, CommandResult.success, hbf, hbo]

/-- Witness for C3 at owner `"123"`, name `"dev"` on the concrete clean
host oracle. -/
theorem create_container_dataset_clean_host_witness :
    create_container_dataset cleanSys "10G" "123" "dev" Trace.empty =
      (.ok { success := true, dataset := workspaceDataset "123" "dev",
             message := "Created container dataset at " ++
               workspaceMountPath "123" "dev" ++ ".",
             mount_path := some (workspaceMountPath "123" "dev") },
       ⟨[["zfs", "list", "-H", "-o", "name", userDataset "123"],
         ["zfs", "create", "-o", "mountpoint=" ++ ("/tank/users/" ++ "123"),
          userDataset "123"],
         ["zfs", "set", "quota=" ++ "10G", userDataset "123"],
         ["zfs", "list", "-H", "-o", "name", workspaceDataset "123" "dev"],
         ["zfs", "list", "-H", "-o", "name", "tank/users/" ++ "123" ++ "/containers"],
         ["zfs", "create", "-o",
          "mountpoint=" ++ ("/tank/users/" ++ "123" ++ "/containers"),
          "tank/users/" ++ "123" ++ "/containers"],
         ["zfs", "list", "-H", "-o", "name", containerDataset "123" "dev"],
         ["zfs", "create", "-o",
          "mountpoint=" ++ ("/tank/users/" ++ "123" ++ "/containers/" ++ "dev"),
          containerDataset "123" "dev"],
         ["zfs", "create", "-o", "mountpoint=" ++ workspaceMountPath "123" "dev",
          workspaceDataset "123" "dev"]],
        []⟩) := by
  have h := create_container_dataset_clean_host cleanSys
    ⟨"", "dataset does not exist", 1⟩ ⟨"", "", 0⟩ (by decide) rfl
    (fun args ha => by
      show cleanSysOutcomes args = _
      unfold cleanSysOutcomes
      rw [if_pos ha])
    (fun args ha => by
      show cleanSysOutcomes args = _
      unfold cleanSysOutcomes
      rw [if_neg ha])
    "10G" "123" "dev" Trace.empty
  simpa [Trace.empty] using h

/-! ## Claim C7: ownership resolution precedence -/

/-- C7: for every container name, (1) when the live in-container query
succeeds with a non-empty value, `get_container_owner` returns that value
and never consults the static-file fallback (no host file is read: the
returned trace has the unchanged read list); (2) when the fast path times
out the fallback `read_owner_from_system_path` is used; (3) likewise when
the fast path fails (nonzero exit — the stopped-container case). -/
theorem get_container_owner_fast_path_precedence (sys : Sys) (name : String) (t : Trace) :
    (∀ r : CommandResult, sys.outcomes (ownerQueryCmd name) = .ok r →
      r.returncode = 0 → pyStrip r.stdout ≠ "" → pyStrip (pyStrip r.stdout) ≠ "" →
      get_container_owner sys name t =
        (some (pyStrip (pyStrip r.stdout)), ⟨t.cmds ++ [ownerQueryCmd name], t.reads⟩)) ∧
    (sys.outcomes (ownerQueryCmd name) = .timeout →
      get_container_owner sys name t =
        read_owner_from_system_path sys name ⟨t.cmds ++ [ownerQueryCmd name], t.reads⟩) ∧
    (∀ r : CommandResult, sys.outcomes (ownerQueryCmd name) = .ok r →
      r.returncode ≠ 0 →
      get_container_owner sys name t =
        read_owner_from_system_path sys name ⟨t.cmds ++ [ownerQueryCmd name], t.reads⟩) := by
  refine ⟨?_, ?_, ?_⟩
  · intro r h hrc hs hss
    have hb : (r.returncode == 0) = true := beq_iff_eq.mpr hrc
    simp [get_container_owner, runCmd, h, mkCommandResult, CommandResult.success,
      hb, hs, hss]
  · intro h
    simp [get_container_owner, runCmd, h]
  · intro r h hrc
    have hb : (r.returncode == 0) = false := beq_eq_false_iff_ne.mpr hrc
    simp [get_container_owner, runCmd, h, mkCommandResult, CommandResult.success, hb]

/-- Oracle where the live ownership query answers with an owner id. -/
def liveOwnerSys : Sys :=
  ⟨fun _ => .ok ⟨"8586298950", "", 0⟩, fun _ => none⟩

/-- Oracle where every command times out. -/
def timeoutSys : Sys :=
  ⟨fun _ => .timeout, fun _ => none⟩

/-- Oracle where the container is stopped: the live query exits 1. -/
def stoppedSys : Sys :=
  ⟨fun _ => .ok ⟨"", "Container dev is not running", 1⟩, fun _ => none⟩

/-- Witness for C7: all three branches at concrete oracles and name
`"dev"`. -/
theorem get_container_owner_fast_path_precedence_witness :
    (get_container_owner liveOwnerSys "dev" Trace.empty =
      (some "8586298950", ⟨[ownerQueryCmd "dev"], []⟩)) ∧
    (get_container_owner timeoutSys "dev" Trace.empty =
      read_owner_from_system_path timeoutSys "dev" ⟨[ownerQueryCmd "dev"], []⟩) ∧
    (get_container_owner stoppedSys "dev" Trace.empty =
      read_owner_from_system_path stoppedSys "dev" ⟨[ownerQueryCmd "dev"], []⟩) := by
  refine ⟨?_, ?_, ?_⟩
  · have h := (get_container_owner_fast_path_precedence liveOwnerSys "dev" Trace.empty).1
      ⟨"8586298950", "", 0⟩ rfl rfl (by decide) (by decide)
    rw [show pyStrip (pyStrip "8586298950") = "8586298950" from by decide] at h
    simpa [Trace.empty] using h
  · have h := (get_container_owner_fast_path_precedence timeoutSys "dev" Trace.empty).2.1 rfl
    simpa [Trace.empty] using h
  · have h := (get_container_owner_fast_path_precedence stoppedSys "dev" Trace.empty).2.2
      ⟨"", "Container dev is not running", 1⟩ rfl (by decide)
    simpa [Trace.empty] using h

/-! ## Claims C2 and C4: orchestrator creation flow (spec-modelled) -/

/-- C2: for every create-container call whose build/install tool invocation
exits non-zero (after successful provisioning): if the captured (stripped)
stdout is empty, `destroyWorkspace` is called exactly once for that owner
and name; if the stdout contains the install-progress marker,
`destroyWorkspace` is never called. -/
theorem create_container_rollback_only_on_pure_build_failure
    (env : OrchEnv) (spec : ContainerSpecData) (zr : ZfsResult) (r : CommandResult)
    (hprov : env.provision = .ok zr) (hzr : zr.success = true)
    (hbuild : env.build = .ok r) (hrc : r.returncode ≠ 0) :
    (pyStrip r.stdout = "" →
      (create_container env spec).2.destroyCalls = [(spec.owner, spec.name)]) ∧
    (hasSubstring (pyStrip r.stdout) installMarker = true →
      (create_container env spec).2.destroyCalls = []) := by
  have hb : (r.returncode == 0) = false := beq_eq_false_iff_ne.mpr hrc
  constructor
  · intro hempty
    have hnomark : hasSubstring (pyStrip r.stdout) installMarker = false := by
      rw [hempty]; decide
    simp [create_container, hprov, hzr, hbuild, mkCommandResult,
      CommandResult.success, hb, hnomark]
  · intro hmark
    simp [create_container, hprov, hzr, hbuild, mkCommandResult,
      CommandResult.success, hb, hmark]

/-- Destroy result used by the orchestrator witnesses. -/
def destroyedOk : ZfsResult :=
  { success := true, dataset := containerDataset "chat_123" "test-dev",
    message := "Destroyed" }

/-- Provisioning result used by the orchestrator witnesses. -/
def provisionedOk : ZfsResult :=
  { success := true, dataset := workspaceDataset "chat_123" "test-dev",
    message := "Created",
    mount_path := some (workspaceMountPath "chat_123" "test-dev") }

/-- Container spec used by the orchestrator witnesses. -/
def testSpec : ContainerSpecData :=
  { name := "test-dev", owner := "chat_123", modules := ["git", "fish"] }

/-- Collaborator outcomes for a pure build failure (nonzero exit, empty
stdout). -/
def buildFailEnv : OrchEnv :=
  { provision := .ok provisionedOk,
    build := .ok ⟨"", "build failed", 1⟩,
    destroyResult := .ok destroyedOk }

/-- Collaborator outcomes for an install-succeeded/start-failed run
(nonzero exit, stdout carries the install marker). -/
def partialInstallEnv : OrchEnv :=
  { provision := .ok provisionedOk,
    build := .ok ⟨"Installing containers:\ntest-dev\n\nStarting containers:\ntest-dev\n\nError at extra-container:900", "", 1⟩,
    destroyResult := .ok destroyedOk }

/-- Witness for C2: both classification branches at concrete inputs. -/
theorem create_container_rollback_only_on_pure_build_failure_witness :
    (create_container buildFailEnv testSpec).2.destroyCalls =
      [("chat_123", "test-dev")] ∧
    (create_container partialInstallEnv testSpec).2.destroyCalls = [] := by
  constructor
  · exact (create_container_rollback_only_on_pure_build_failure buildFailEnv testSpec
      provisionedOk ⟨"", "build failed", 1⟩ rfl rfl rfl (by decide)).1 (by decide)
  · exact (create_container_rollback_only_on_pure_build_failure partialInstallEnv testSpec
      provisionedOk
      ⟨"Installing containers:\ntest-dev\n\nStarting containers:\ntest-dev\n\nError at extra-container:900", "", 1⟩
      rfl rfl rfl (by decide)).2 (by decide)

/-- C4: for every create-container call in which storage provisioning
returns failure, `create_container` returns a failure result whose message
carries the storage/provisioning annotation, and neither the build tool
nor the rollback destroy is ever invoked. -/
theorem create_container_aborts_on_provisioning_failure
    (env : OrchEnv) (spec : ContainerSpecData) (zr : ZfsResult)
    (hprov : env.provision = .ok zr) (hfail : zr.success = false) :
    (create_container env spec).1 =
      .ok { success := false, name := spec.name,
            message := "Storage provisioning failed for container " ++ spec.name ++ ".",
            error := zr.error } ∧
    hasSubstring "Storage provisioning failed for container " "provision" = true ∧
    (create_container env spec).2.buildCalls = 0 ∧
    (create_container env spec).2.destroyCalls = [] := by
  refine ⟨?_, by decide, ?_, ?_⟩ <;>
    simp [create_container, hprov, hfail]

/-- Failed provisioning result used by the C4 witness. -/
def provisionFailedQuota : ZfsResult :=
  { success := false, dataset := workspaceDataset "chat_123" "test-dev",
    message := "Failed", error := some "quota exceeded" }

/-- Collaborator outcomes where provisioning fails with a quota error. -/
def provisionFailEnv : OrchEnv :=
  { provision := .ok provisionFailedQuota,
    build := .ok ⟨"", "", 0⟩,
    destroyResult := .ok destroyedOk }

/-- Witness for C4 at a concrete provisioning failure. -/
theorem create_container_aborts_on_provisioning_failure_witness :
    (create_container provisionFailEnv testSpec).1 =
      .ok { success := false, name := "test-dev",
            message := "Storage provisioning failed for container " ++ "test-dev" ++ ".",
            error := some "quota exceeded" } ∧
    hasSubstring "Storage provisioning failed for container " "provision" = true ∧
    (create_container provisionFailEnv testSpec).2.buildCalls = 0 ∧
    (create_container provisionFailEnv testSpec).2.destroyCalls = [] :=
  create_container_aborts_on_provisioning_failure provisionFailEnv testSpec
    provisionFailedQuota rfl rfl

/-! ## Claim C5: exception policy at the boundary -/

end Voxnix
